import Mathlib

/-!
Verification of the landing-page logic of the front-end-foundry-forge
repository, shallowly embedded from `src/src/pages/Index.tsx`.

The page declares two literal arrays (`learningPaths` and `features`),
one pure helper (`getDifficultyColor`) mapping a difficulty label to a
badge style token, and a render that maps each array (and a literal list
of technology names) to a list of cards.  Icons are embedded by the name
of the lucide icon component used at the call site.
-/

namespace Foundry

/-- A learning-path entry, as declared literally in `Index.tsx` lines 9-58. -/
structure LearningPath where
  title : String
  description : String
  icon : String
  topics : List String
  difficulty : String
  color : String
deriving Repr, DecidableEq

/-- A feature entry, as declared literally in `Index.tsx` lines 60-81. -/
structure Feature where
  icon : String
  title : String
  description : String
deriving Repr, DecidableEq

/-- The six learning paths declared in `Index.tsx`. -/
def learningPaths : List LearningPath :=
  [ { title := "HTML Fundamentals"
    , description := "Master semantic markup and accessibility"
    , icon := "FileText"
    , topics := ["Semantic Elements", "Forms & Validation", "Accessibility", "SEO Basics"]
    , difficulty := "Beginner"
    , color := "bg-orange-500" }
  , { title := "CSS Mastery"
    , description := "Modern styling with layouts and animations"
    , icon := "Code"
    , topics := ["Flexbox & Grid", "Responsive Design", "Animations", "Custom Properties"]
    , difficulty := "Intermediate"
    , color := "bg-blue-500" }
  , { title := "JavaScript Essentials"
    , description := "Core language features and modern patterns"
    , icon := "Zap"
    , topics := ["ES6+ Features", "Async/Await", "DOM Manipulation", "Error Handling"]
    , difficulty := "Intermediate"
    , color := "bg-yellow-500" }
  , { title := "TypeScript Guide"
    , description := "Type-safe JavaScript development"
    , icon := "Target"
    , topics := ["Types & Interfaces", "Generics", "React Integration", "Advanced Patterns"]
    , difficulty := "Advanced"
    , color := "bg-indigo-500" }
  , { title := "React Development"
    , description := "Component-based UI development"
    , icon := "Users"
    , topics := ["Components & Hooks", "State Management", "Performance", "Testing"]
    , difficulty := "Intermediate"
    , color := "bg-cyan-500" }
  , { title := "Next.js Framework"
    , description := "Full-stack React applications"
    , icon := "BookOpen"
    , topics := ["App Router", "Server Components", "API Routes", "Optimization"]
    , difficulty := "Advanced"
    , color := "bg-purple-500" } ]

/-- The four feature entries declared in `Index.tsx`. -/
def features : List Feature :=
  [ { icon := "BookOpen"
    , title := "Comprehensive Guides"
    , description := "In-depth documentation covering all essential frontend technologies" }
  , { icon := "Code"
    , title := "Practical Examples"
    , description := "Real-world code examples with detailed explanations" }
  , { icon := "Target"
    , title := "Best Practices"
    , description := "Industry-standard patterns and proven methodologies" }
  , { icon := "Trophy"
    , title := "Common Pitfalls"
    , description := "Learn from mistakes and avoid common development traps" } ]

/-- The difficulty-to-style switch of `Index.tsx` lines 83-90.  A JS
`switch` over string literals is a chain of strict equality tests with a
`default` branch. -/
def getDifficultyColor (difficulty : String) : String :=
  if difficulty = "Beginner" then "bg-green-100 text-green-800"
  else if difficulty = "Intermediate" then "bg-yellow-100 text-yellow-800"
  else if difficulty = "Advanced" then "bg-red-100 text-red-800"
  else "bg-gray-100 text-gray-800"

/-- The three difficulty labels handled by a non-default case of the switch. -/
def knownDifficulty : List String := ["Beginner", "Intermediate", "Advanced"]

/-- The token returned by the default branch of the switch. -/
def defaultToken : String := "bg-gray-100 text-gray-800"

/-- Character-wise lowercasing, used to state that two strings agree up
to letter case. -/
def lowerCase (s : String) : String := String.mk (s.data.map Char.toLower)

/-- A rendered feature card (`Index.tsx` lines 138-152): icon, title
and description of the feature, in that order. -/
structure FeatureCard where
  icon : String
  title : String
  description : String
deriving Repr, DecidableEq

/-- Rendering of one feature into its card. -/
def renderFeatureCard (f : Feature) : FeatureCard :=
  { icon := f.icon, title := f.title, description := f.description }

/-- A rendered learning-path card (`Index.tsx` lines 170-205): color
bar, colored icon box, difficulty badge (style class and text), title,
description and one secondary badge per topic. -/
structure PathCard where
  colorBar : String
  iconBox : String
  icon : String
  badgeClass : String
  badgeText : String
  title : String
  description : String
  topicBadges : List String
deriving Repr, DecidableEq

/-- Rendering of one learning path into its card; the badge class comes
from `getDifficultyColor` applied to the difficulty label. -/
def renderPathCard (p : LearningPath) : PathCard :=
  { colorBar := p.color
  , iconBox := p.color
  , icon := p.icon
  , badgeClass := getDifficultyColor p.difficulty
  , badgeText := p.difficulty
  , title := p.title
  , description := p.description
  , topicBadges := p.topics }

/-- The literal technology list of the documentation-preview section
(`Index.tsx` line 221). -/
def techs : List String :=
  ["HTML", "CSS", "JavaScript", "TypeScript", "React", "Next.js", "TailwindCSS", "Testing"]

/-- A technology tile of the documentation-preview section. -/
structure TechTile where
  tech : String
deriving Repr, DecidableEq

/-- Rendering of one technology name into its tile. -/
def renderTechTile (t : String) : TechTile := { tech := t }

/-- The dynamic output of the Index component: the three lists of cards
produced by the three `map` calls, in document order. -/
structure IndexOutput where
  featureCards : List FeatureCard
  pathCards : List PathCard
  techTiles : List TechTile
deriving Repr, DecidableEq

/-- The render of the Index component over given data: each sequence is
mapped, in order, to its cards, with no filtering, sorting or
pagination. -/
def renderIndex (fs : List Feature) (lps : List LearningPath) : IndexOutput :=
  { featureCards := fs.map renderFeatureCard
  , pathCards := lps.map renderPathCard
  , techTiles := techs.map renderTechTile }

/-- The output of the Index component on its own static data. -/
def indexOutput : IndexOutput := renderIndex features learningPaths

/-- The data visible to the Index render: the two arrays it declares. -/
structure PageState where
  learningPaths : List LearningPath
  features : List Feature
deriving Repr, DecidableEq

/-- The state holding the literal arrays as declared. -/
def initState : PageState := { learningPaths := learningPaths, features := features }

/-- State-passing form of the Index render: the component body contains
no assignment to either array, so the state is threaded through
unchanged next to the produced output. -/
def renderIndexSt (s : PageState) : IndexOutput × PageState :=
  (renderIndex s.features s.learningPaths, s)

end Foundry

namespace Foundry

/-- Claim C1: each of the three known difficulty labels maps to its
fixed style token (Beginner to the green pair, Intermediate to the
yellow pair, Advanced to the red pair), and any string outside the
three known labels maps to the default gray token. -/
theorem getDifficultyColor_spec (s : String) (h : s ∉ knownDifficulty) :
    getDifficultyColor "Beginner" = "bg-green-100 text-green-800" ∧
    getDifficultyColor "Intermediate" = "bg-yellow-100 text-yellow-800" ∧
    getDifficultyColor "Advanced" = "bg-red-100 text-red-800" ∧
    getDifficultyColor s = "bg-gray-100 text-gray-800" := by
  simp only [knownDifficulty, List.mem_cons, List.not_mem_nil, or_false, not_or] at h
  obtain ⟨h1, h2, h3⟩ := h
  refine ⟨rfl, rfl, rfl, ?_⟩
  simp [getDifficultyColor, h1, h2, h3]

/-- Witness for C1 at the concrete unrecognized input `"Unknown"`. -/
theorem getDifficultyColor_spec_witness :
    "Unknown" ∉ knownDifficulty ∧
    getDifficultyColor "Unknown" = "bg-gray-100 text-gray-800" :=
  ⟨by decide, (getDifficultyColor_spec "Unknown" (by decide)).2.2.2⟩

/-- Claim C2: `getDifficultyColor` is total: on every input string it
returns one of the four defined style tokens (the three label tokens or
the default token); no input is left without a result. -/
theorem getDifficultyColor_total (s : String) :
    getDifficultyColor s ∈
      ["bg-green-100 text-green-800", "bg-yellow-100 text-yellow-800",
       "bg-red-100 text-red-800", "bg-gray-100 text-gray-800"] := by
  unfold getDifficultyColor
  split
  · simp
  · split
    · simp
    · split <;> simp

/-- Claim C3: the render produces exactly one feature card per element
of the feature sequence and one learning-path card per element of the
learning-path sequence, for any input sequences and in particular for
the static data of the page. -/
theorem renderIndex_card_counts (fs : List Feature) (lps : List LearningPath) :
    (renderIndex fs lps).featureCards.length = fs.length ∧
    (renderIndex fs lps).pathCards.length = lps.length := by
  constructor <;> simp [renderIndex]

/-- Claim C4: the render preserves sequence order with no filtering,
reordering or pagination: for every index `i`, the `i`-th rendered
feature card is exactly the rendering of the `i`-th feature, and the
`i`-th rendered learning-path card is exactly the rendering of the
`i`-th learning path (and an index with no element yields no card). -/
theorem renderIndex_in_order (fs : List Feature) (lps : List LearningPath) (i : Nat) :
    (renderIndex fs lps).featureCards[i]? = (fs[i]?).map renderFeatureCard ∧
    (renderIndex fs lps).pathCards[i]? = (lps[i]?).map renderPathCard := by
  constructor <;> simp [renderIndex]

/-- Claim C5: the render is deterministic and idempotent: two
evaluations over equal static data produce equal outputs. -/
theorem renderIndex_deterministic (fs fs' : List Feature) (lps lps' : List LearningPath)
    (hf : fs = fs') (hl : lps = lps') :
    renderIndex fs lps = renderIndex fs' lps' := by
  rw [hf, hl]

/-- Witness for C5 at the page's own static data. -/
theorem renderIndex_deterministic_witness :
    renderIndex features learningPaths = renderIndex features learningPaths :=
  renderIndex_deterministic features features learningPaths learningPaths rfl rfl

/-- Claim C6: every learning path declared on the page carries one of
the three known difficulty labels, and on each of those labels
`getDifficultyColor` does not take the default branch (its result
differs from the default gray token). -/
theorem learningPaths_difficulty_known (p : LearningPath) (hp : p ∈ learningPaths) :
    p.difficulty ∈ knownDifficulty ∧
    getDifficultyColor p.difficulty ≠ defaultToken := by
  fin_cases hp <;> exact ⟨by decide, by decide⟩

/-- Witness for C6 at the first learning path of the page. -/
theorem learningPaths_difficulty_known_witness :
    ∃ p, p ∈ learningPaths ∧ p.difficulty ∈ knownDifficulty ∧
      getDifficultyColor p.difficulty ≠ defaultToken := by
  refine ⟨{ title := "HTML Fundamentals"
          , description := "Master semantic markup and accessibility"
          , icon := "FileText"
          , topics := ["Semantic Elements", "Forms & Validation", "Accessibility", "SEO Basics"]
          , difficulty := "Beginner"
          , color := "bg-orange-500" }, ?_, ?_⟩
  · simp [learningPaths]
  · exact learningPaths_difficulty_known _ (by simp [learningPaths])

/-- Claim C7: the render mutates nothing: in state-passing form,
evaluating the Index render (its `map` calls and `getDifficultyColor`
included) returns both arrays, and hence every element field, exactly
as they were. -/
theorem renderIndexSt_frame (s : PageState) :
    (renderIndexSt s).2 = s ∧
    (renderIndexSt s).2.learningPaths = s.learningPaths ∧
    (renderIndexSt s).2.features = s.features :=
  ⟨rfl, rfl, rfl⟩

/-- Claim C8: `getDifficultyColor` is case-sensitive: an input that
agrees with a known label up to letter case but is not literally one of
the three known labels falls through to the default gray token. -/
theorem getDifficultyColor_case_sensitive (s : String)
    (_hcase : lowerCase s ∈ ["beginner", "intermediate", "advanced"])
    (hne : s ∉ knownDifficulty) :
    getDifficultyColor s = "bg-gray-100 text-gray-800" := by
  simp only [knownDifficulty, List.mem_cons, List.not_mem_nil, or_false, not_or] at hne
  simp [getDifficultyColor, hne.1, hne.2.1, hne.2.2]

/-- Witness for C8 at the concrete inputs `"beginner"`, `"BEGINNER"`
and `"advanced"`. -/
theorem getDifficultyColor_case_sensitive_witness :
    getDifficultyColor "beginner" = "bg-gray-100 text-gray-800" ∧
    getDifficultyColor "BEGINNER" = "bg-gray-100 text-gray-800" ∧
    getDifficultyColor "advanced" = "bg-gray-100 text-gray-800" :=
  ⟨getDifficultyColor_case_sensitive "beginner" (by decide) (by decide),
   getDifficultyColor_case_sensitive "BEGINNER" (by decide) (by decide),
   getDifficultyColor_case_sensitive "advanced" (by decide) (by decide)⟩

/-- Claim C9: the three known labels map to three pairwise distinct
style tokens, each also distinct from the default token, so the badge
style uniquely identifies the difficulty among recognized labels. -/
theorem getDifficultyColor_injective_on_known :
    List.Pairwise (fun a b => a ≠ b)
      [getDifficultyColor "Beginner", getDifficultyColor "Intermediate",
       getDifficultyColor "Advanced", defaultToken] := by
  decide

/-- Claim C10: the documentation-preview section renders exactly eight
technology tiles, one per element of the literal list, in the fixed
order HTML, CSS, JavaScript, TypeScript, React, Next.js, TailwindCSS,
Testing. -/
theorem techTiles_spec :
    indexOutput.techTiles.length = 8 ∧
    indexOutput.techTiles =
      [{ tech := "HTML" }, { tech := "CSS" }, { tech := "JavaScript" },
       { tech := "TypeScript" }, { tech := "React" }, { tech := "Next.js" },
       { tech := "TailwindCSS" }, { tech := "Testing" }] := by
  constructor <;> rfl

end Foundry
